import Mathlib

/-!
Verification development for the SunLayer solar-illumination overlay
(`examples/SunLayer2.js` and the matching page script).  The embedding
models the astronomical core and the night-tile cache state machine with
exact rational arithmetic in place of IEEE floats; quantities that the
fragment shader obtains from transcendental functions (`sin`, `cos`,
`asin`, `sqrt`) are taken as inputs of the corresponding definitions,
which model everything computed after them.
-/

namespace SunLayer

/-! ## Fragment shader (`fragmentSrc`, SunLayer2.js line 744 / page script lines 753-865)

The shader receives the interpolated Besselian elements and the solar
situation as uniforms.  We model the arithmetic after the transcendental
steps: `d = sqrt(d2)` (hence `0 ≤ d`), `L1 = l1 - Z*tanf1`,
`L2 = l2 - Z*tanf2`, and `fAltitude = asin(clamped t)` enter as
parameters `d`, `L1`, `L2`, `a`. -/

/-- Base obscuration inside the penumbra, shader line
`obs = (L1 - d) / (L1 + L2);`. -/
def baseObs (L1 L2 d : ℚ) : ℚ := (L1 - d) / (L1 + L2)

/-- Tail of the eclipse block after the umbra test: `d1` is the (possibly
forced-to-`abs(L2)`) distance and `ovr0` the override left by the umbra
test; computes `obs` and applies the `cutoff = 0.95` override ramp
`overrideObs = (obs - cutoff) * (1. - cutoff * u_obscureFactor) / (1. - cutoff)
+ cutoff * u_obscureFactor`. -/
def eclipseTail (f L1 L2 d1 ovr0 : ℚ) : ℚ × ℚ :=
  if 95 / 100 < baseObs L1 L2 d1 then
    (baseObs L1 L2 d1,
      (baseObs L1 L2 d1 - 95 / 100) * (1 - 95 / 100 * f) / (1 - 95 / 100) + 95 / 100 * f)
  else (baseObs L1 L2 d1, ovr0)

/-- Eclipse block of the fragment shader (`if (u_deltat > 0.) { ... }`):
given the obscure factor `f`, the uniform `deltat`, the distance `d` from
the shadow axis and the radii `L1`, `L2`, returns the pair
`(obs, overrideObs)` as left by the block.  The umbra test
`if (d < abs(L2)) { d = abs(L2); overrideObs = 1.; }` picks the arguments
of `eclipseTail`; outside the block both values stay at their
initialisation `0.`. -/
def eclipseObsOvr (f dt d L1 L2 : ℚ) : ℚ × ℚ :=
  if 0 < dt then
    if d < L1 then
      if d < |L2| then eclipseTail f L1 L2 |L2| 1 else eclipseTail f L1 L2 d 0
    else (0, 0)
  else (0, 0)

/-- Middle branch of the twilight blend, shader line
`obs = 1. - (1. - obs) * (1. - (0.018 - fAltitude) / 0.036);`. -/
def twilightMid (obs a : ℚ) : ℚ :=
  1 - (1 - obs) * (1 - (18 / 1000 - a) / (36 / 1000))

/-- Twilight blend of the fragment shader:
`if (fAltitude < -0.018) obs = 1.; else if (fAltitude < 0.018) obs = ...`. -/
def twilight (obs a : ℚ) : ℚ :=
  if a < -(18 / 1000) then 1
  else if a < 18 / 1000 then twilightMid obs a
  else obs

/-- Shader line `if (fAltitude < 0.) { overrideObs = 0.; }`. -/
def zeroOverride (ovr a : ℚ) : ℚ := if a < 0 then 0 else ovr

/-- Final clamp of `obs`:
`if (obs > 1.) obs = 1.; else if (obs < 0.) obs = 0.;`. -/
def clamp01 (x : ℚ) : ℚ := if 1 < x then 1 else if x < 0 then 0 else x

/-- Whole fragment shader `main` after the transcendental steps: takes the
obscure factor `f`, the city-lights flag `ce`, the uniform `deltat`, the
shadow distance `d`, radii `L1`, `L2`, the solar altitude `a` and the
night-raster sample `(r, g, b)`; returns `(luminance, alpha)` of
`gl_FragColor` (the colour channels are `lum` in the city-lights branch
and `0.` otherwise, alpha is `max(overrideObs, u_obscureFactor * obs)`). -/
def fragColor (f ce dt d L1 L2 a r g b : ℚ) : ℚ × ℚ :=
  let p := eclipseObsOvr f dt d L1 L2
  let obs1 := twilight p.1 a
  let ovr1 := zeroOverride p.2 a
  let obs2 := clamp01 obs1
  if 90 / 100 < obs2 ∧ 0 < ce then
    let amnt := (obs2 - 90 / 100) * 7
    let lum := ((r + g + b) / 3 - 1 / 10) * amnt
    (lum, max ovr1 (f * obs2))
  else
    (0, max ovr1 (f * obs2))

/-- Obscuration value entering the city-lights test and the alpha channel:
the eclipse-block `obs` after the twilight blend and the final clamp. -/
def finalObs (f dt d L1 L2 a : ℚ) : ℚ :=
  clamp01 (twilight (eclipseObsOvr f dt d L1 L2).1 a)

/-! ## Besselian dataset table, selector and interpolator
(SunLayer2.js lines 637-664, 1044-1051) -/

/-- Four-coefficient cubic polynomial `[c0, c1, c2, c3]` as stored in the
`all_bessel` entries. -/
structure Poly4 where
  c0 : ℚ
  c1 : ℚ
  c2 : ℚ
  c3 : ℚ
deriving DecidableEq, Repr

/-- One entry of the `all_bessel` table, fields in source order.  In the
source `deltat` is stored as a decimal string and coerced to a number
when used; it is carried here as its numeric value. -/
structure Bessel where
  tanf2 : ℚ
  t0 : ℚ
  d : Poly4
  x : Poly4
  y : Poly4
  l1 : Poly4
  deltat : ℚ
  l2 : Poly4
  tanf1 : ℚ
  mu : Poly4
deriving DecidableEq, Repr

/-- Result of `getElements`: each polynomial field of the entry collapsed
to a scalar, the scalar fields passed through unchanged. -/
structure Elements where
  tanf2 : ℚ
  t0 : ℚ
  d : ℚ
  x : ℚ
  y : ℚ
  l1 : ℚ
  deltat : ℚ
  l2 : ℚ
  tanf1 : ℚ
  mu : ℚ
deriving DecidableEq, Repr

/-- First entry of the `all_bessel` table (eclipse of 2017-02-26). -/
def bessel0 : Bessel :=
  ⟨0.0046984, 1488121131.4, ⟨-8.4916401, 0.015261, 0.000002, 0⟩, ⟨0.175941, 0.5253564, -0.0000062, -0.0000074⟩, ⟨-0.42556, 0.1532541, 0.0000792, -0.0000021⟩, ⟨0.55247, -0.0001257, -0.0000115, 0⟩, 68.6, ⟨0.006301, -0.0001251, -0.0000115, 0⟩, 0.0047219, ⟨41.7989387, 15.0030899, 0, 0⟩⟩

/-- Second entry of the `all_bessel` table (eclipse of 2017-08-21). -/
def bessel1 : Bessel :=
  ⟨0.0045992, 1503338331.2, ⟨11.8669596, -0.013622, -0.000002, 0⟩, ⟨-0.129571, 0.5406426, -0.0000294, -0.0000081⟩, ⟨0.485416, -0.14164, -0.0000905, 0.000002⟩, ⟨0.542093, 0.0001241, -0.0000118, 0⟩, 68.8, ⟨-0.004025, 0.0001234, -0.0000117, 0⟩, 0.0046222, ⟨89.24543, 15.0039396, 0, 0⟩⟩

/-- The `all_bessel` dataset table, SunLayer2.js line 637. -/
def allBessel : List Bessel :=
  [bessel0,
   bessel1,
   ⟨0.0047104, 1518728330.9, ⟨-12.4640398, 0.01408, 0.000003, 0⟩, ⟨0.36362, 0.4990523, -0.0000212, -0.0000059⟩, ⟨-1.157549, 0.1283336, 0.0001268, -0.0000014⟩, ⟨0.568257, -0.0000923, -0.0000103, 0⟩, 69.1, ⟨0.022009, -0.0000918, -0.0000102, 0⟩, 0.004734, ⟨131.4807434, 15.0018196, 0, 0⟩⟩,
   ⟨0.0045759, 1531450730.8, ⟨21.8453102, -0.005937, -0.000005, 0⟩, ⟨-0.099286, 0.5828147, -0.0000013, -0.0000099⟩, ⟨-1.350769, -0.0332933, -0.000077, 0.0000005⟩, ⟨0.530168, -0.0000118, -0.0000128, 0⟩, 69.2, ⟨-0.01589, -0.0000118, -0.0000127, 0⟩, 0.0045988, ⟨223.5707855, 15.0002403, 0, 0⟩⟩,
   ⟨0.0045897, 1533981530.7, ⟨15.2167301, -0.012076, -0.000003, 0⟩, ⟨0.367508, 0.5684958, -0.0000477, -0.0000096⟩, ⟨1.093919, -0.1262935, -0.0001598, 0.0000021⟩, ⟨0.531698, 0.0000338, -0.0000128, 0⟩, 69.3, ⟨-0.014368, 0.0000336, -0.0000127, 0⟩, 0.0046127, ⟨328.696106, 15.0030804, 0, 0⟩⟩,
   ⟨0.0047325, 1546739930.6, ⟨-22.54492, 0.004848, 0.000006, 0⟩, ⟨0.128373, 0.5082384, -0.0000162, -0.0000058⟩, ⟨1.144022, 0.0084236, 0.0001036, 0⟩, ⟨0.572702, 0.0000575, -0.0000101, 0⟩, 69.4, ⟨0.026432, 0.0000572, -0.00001, 0⟩, 0.0047562, ⟨208.6152954, 14.9967403, 0, 0⟩⟩,
   ⟨0.0045755, 1562093930.4, ⟨23.0129509, -0.003187, -0.000005, 0⟩, ⟨-0.215634, 0.5662087, 0.0000274, -0.0000088⟩, ⟨-0.650708, 0.0106399, -0.0001272, -0.0000003⟩, ⟨0.537631, -0.0000898, -0.000012, 0⟩, 69.6, ⟨-0.008464, -0.0000894, -0.000012, 0⟩, 0.0045984, ⟨103.9797287, 14.9995098, 0, 0⟩⟩,
   ⟨0.0047311, 1577336328.5, ⟨-23.3734703, 0.001407, 0.000006, 0⟩, ⟨-0.140413, 0.5356103, -0.0000015, -0.0000072⟩, ⟨0.424075, -0.0366551, 0.0001458, 0.0000006⟩, ⟨0.558887, 0.0001284, -0.0000112, 0⟩, 71.5, ⟨0.012686, 0.0001277, -0.0000111, 0⟩, 0.0047548, ⟨254.9367676, 14.9962702, 0, 0⟩⟩,
   ⟨0.004578, 1592722728.2, ⟨23.4356709, -0.000233, -0.000006, 0⟩, ⟨0.154259, 0.5311546, 0.0000259, -0.0000069⟩, ⟨0.136409, 0.0513871, -0.000161, -0.0000008⟩, ⟨0.552318, -0.0001223, -0.0000107, 0⟩, 71.8, ⟨0.00615, -0.0001217, -0.0000107, 0⟩, 0.0046009, ⟨284.5355225, 14.9991102, 0, 0⟩⟩,
   ⟨0.0047266, 1607961527.9, ⟨-23.2577591, -0.001986, 0.000006, 0⟩, ⟨-0.181824, 0.5633567, 0.0000216, -0.000009⟩, ⟨-0.269645, -0.0858122, 0.0001884, 0.0000015⟩, ⟨0.543862, 0.000097, -0.0000126, 0⟩, 72.1, ⟨-0.002265, 0.0000965, -0.0000125, 0⟩, 0.0047502, ⟨61.2659111, 14.9965, 0, 0⟩⟩,
   ⟨0.004583, 1623322727.7, ⟨23.0422802, 0.002841, -0.000005, 0⟩, ⟨-0.018704, 0.5012289, 0.0000342, -0.0000057⟩, ⟨0.926106, 0.0887765, -0.0001797, -0.0000011⟩, ⟨0.56438, -0.0000551, -0.0000098, 0⟩, 72.3, ⟨0.018151, -0.0000548, -0.0000097, 0⟩, 0.004606, ⟨345.1269226, 14.9991999, 0, 0⟩⟩,
   ⟨0.0047198, 1638604727.4, ⟨-22.2747192, -0.005178, 0.000006, 0⟩, ⟨0.025209, 0.5683028, 0.0000391, -0.0000097⟩, ⟨-0.983653, -0.1315142, 0.0002213, 0.0000024⟩, ⟨0.537805, -0.000016, -0.0000131, 0⟩, 72.6, ⟨-0.008292, -0.000016, -0.0000131, 0⟩, 0.0047434, ⟨302.452179, 14.9972801, 0, 0⟩⟩,
   ⟨0.0046189, 1651352327.2, ⟨14.9710398, 0.012167, -0.000003, 0⟩, ⟨0.61808, 0.4753147, -0.0000015, -0.0000057⟩, ⟨-1.028089, 0.2096405, -0.0000432, -0.0000027⟩, ⟨0.561073, 0.0000847, -0.0000103, 0⟩, 72.8, ⟨0.014861, 0.0000843, -0.0000102, 0⟩, 0.004642, ⟨135.7055969, 15.00247, 0, 0⟩⟩,
   ⟨0.0046785, 1666695526.9, ⟨-12.17348, -0.013746, 0.000003, 0⟩, ⟨0.454792, 0.4955495, 0.0000277, -0.000007⟩, ⟨0.968771, -0.2395876, 0.0000167, 0.0000036⟩, ⟨0.549879, -0.0001152, -0.0000116, 0⟩, 73.1, ⟨0.003723, -0.0001146, -0.0000116, 0⟩, 0.0047019, ⟨348.9822693, 15.00243, 0, 0⟩⟩,
   ⟨0.0046318, 1681963126.6, ⟨11.4117899, 0.013741, -0.000003, 0⟩, ⟨0.02685, 0.4950182, 0.0000135, -0.0000071⟩, ⟨-0.427366, 0.2441992, -0.0000494, -0.0000037⟩, ⟨0.546804, 0.0001216, -0.0000116, 0⟩, 73.4, ⟨0.000663, 0.000121, -0.0000115, 0⟩, 0.004655, ⟨240.2429352, 15.0034199, 0, 0⟩⟩,
   ⟨0.0046648, 1697306326.3, ⟨-8.2441902, -0.014888, 0.000002, 0⟩, ⟨0.169658, 0.4585533, 0.0000278, -0.0000054⟩, ⟨0.334859, -0.2413671, 0.000024, 0.000003⟩, ⟨0.564311, -0.0000891, -0.0000103, 0⟩, 73.7, ⟨0.018083, -0.0000886, -0.0000103, 0⟩, 0.0046882, ⟨93.5017319, 15.0035295, 0, 0⟩⟩,
   ⟨0.004645, 1712599126, ⟨7.5862002, 0.014844, -0.000002, 0⟩, ⟨-0.318244, 0.5117116, 0.0000326, -0.0000084⟩, ⟨0.219764, 0.2709589, -0.0000595, -0.0000047⟩, ⟨0.535814, 0.0000618, -0.0000128, 0⟩, 74.0, ⟨-0.010272, 0.0000615, -0.0000127, 0⟩, 0.0046683, ⟨89.591217, 15.0040798, 0, 0⟩⟩,
   ⟨0.0046501, 1727895525.7, ⟨-3.9872501, -0.015511, 0.000001, 0⟩, ⟨-0.068048, 0.441617, 0.0000136, -0.0000048⟩, ⟨-0.36317, -0.243563, 0.0000339, 0.0000028⟩, ⟨0.570349, -0.0000002, -0.0000098, 0⟩, 74.3, ⟨0.024091, -0.0000002, -0.0000097, 0⟩, 0.0046734, ⟨107.7310867, 15.0043297, 0, 0⟩⟩,
   ⟨0.004659, 1743245925.5, ⟨3.56602, 0.015539, -0.000001, 0⟩, ⟨-0.40287, 0.5094122, 0.0000415, -0.0000085⟩, ⟨0.965695, 0.2788348, -0.0000723, -0.0000048⟩, ⟨0.535766, -0.0000533, -0.0000129, 0⟩, 74.5, ⟨-0.01032, -0.000053, -0.0000128, 0⟩, 0.0046823, ⟨343.831665, 15.0043602, 0, 0⟩⟩,
   ⟨0.0046351, 1758484725.2, ⟨0.36472, -0.0156, 0, 0⟩, ⟨-0.390072, 0.4531592, 0.0000032, -0.0000054⟩, ⟨-1.001834, -0.2521633, 0.0000456, 0.0000031⟩, ⟨0.562492, 0.0000909, -0.0000103, 0⟩, 74.8, ⟨0.016273, 0.0000905, -0.0000102, 0⟩, 0.0046583, ⟨121.7819214, 15.0047703, 0, 0⟩⟩,
   ⟨0.0047085, 1771329524.9, ⟨-11.8793001, 0.014049, 0.000002, 0⟩, ⟨0.321954, 0.4827224, -0.0000314, -0.0000064⟩, ⟨-0.926971, 0.2355394, 0.0001169, -0.0000033⟩, ⟨0.55772, -0.0001181, -0.0000111, 0⟩, 75.1, ⟨0.011524, -0.0001175, -0.0000111, 0⟩, 0.0047321, ⟨356.5144043, 15.0019798, 0, 0⟩⟩,
   ⟨0.0045911, 1786557524.6, ⟨14.79667, -0.012065, -0.000003, 0⟩, ⟨0.475514, 0.5189249, -0.0000773, -0.000008⟩, ⟨0.771183, -0.230168, -0.0001246, 0.0000038⟩, ⟨0.537955, 0.0000939, -0.0000121, 0⟩, 75.4, ⟨-0.008142, 0.0000935, -0.0000121, 0⟩, 0.0046141, ⟨88.7477875, 15.0030899, 0, 0⟩⟩,
   ⟨0.004719, 1801929524.3, ⟨-15.5479402, 0.012383, 0.000004, 0⟩, ⟨0.111676, 0.4664952, -0.0000337, -0.0000053⟩, ⟨-0.273293, 0.2031856, 0.0001025, -0.0000025⟩, ⟨0.571928, -0.0000653, -0.0000101, 0⟩, 75.7, ⟨0.025662, -0.000065, -0.00001, 0⟩, 0.0047426, ⟨56.4930687, 15.0005102, 0, 0⟩⟩,
   ⟨0.0045834, 1817200724, ⟨17.7624702, -0.010181, -0.000004, 0⟩, ⟨-0.019772, 0.5447123, -0.0000446, -0.0000092⟩, ⟨0.160061, -0.2111582, -0.0001217, 0.0000038⟩, ⟨0.530596, 0.0000138, -0.0000128, 0⟩, 76.0, ⟨-0.015464, 0.0000137, -0.0000128, 0⟩, 0.0046064, ⟨328.4225464, 15.0021, 0, 0⟩⟩,
   ⟨0.0047264, 1832511523.7, ⟨-18.7282505, 0.010074, 0.000005, 0⟩, ⟨-0.205283, 0.474257, -0.000039, -0.0000053⟩, ⟨0.34028, 0.1738587, 0.0000968, -0.0000021⟩, ⟨0.574117, 0.000042, -0.0000099, 0⟩, 76.3, ⟨0.02784, 0.0000418, -0.0000099, 0⟩, 0.0047501, ⟨41.8912811, 14.9989595, 0, 0⟩⟩,
   ⟨0.0045786, 1847847523.4, ⟨20.1823101, -0.007974, -0.000005, 0⟩, ⟨-0.154409, 0.5449892, -0.0000214, -0.0000087⟩, ⟨-0.586424, -0.1746085, -0.0001021, 0.000003⟩, ⟨0.535237, -0.0000859, -0.0000123, 0⟩, 76.6, ⟨-0.010846, -0.0000854, -0.0000122, 0⟩, 0.0046016, ⟨223.3786774, 15.0010204, 0, 0⟩⟩,
   ⟨0.0047304, 1863104323.1, ⟨-21.1630096, 0.007241, 0.000006, 0⟩, ⟨-0.407444, 0.5081525, -0.0000393, -0.0000065⟩, ⟨0.981055, 0.1455283, 0.0000921, -0.000002⟩, ⟨0.562666, 0.0001189, -0.0000109, 0⟩, 76.9, ⟨0.016446, 0.0001183, -0.0000108, 0⟩, 0.0047541, ⟨72.6928863, 14.9976301, 0, 0⟩⟩,
   ⟨0.0045819, 1875931122.8, ⟨23.1593208, 0.002591, -0.000005, 0⟩, ⟨-0.010799, 0.5247606, 0.0000104, -0.0000065⟩, ⟨1.295413, -0.0176365, -0.0002057, 0.0000003⟩, ⟨0.556662, -0.0001027, -0.0000104, 0⟩, 77.2, ⟨0.010472, -0.0001022, -0.0000103, 0⟩, 0.0046048, ⟨240.0355835, 14.9991999, 0, 0⟩⟩,
   ⟨0.0045765, 1878479922.8, ⟨22.0024509, -0.005423, -0.000005, 0⟩, ⟨-0.137347, 0.5252634, -0.0000096, -0.0000071⟩, ⟨-1.4271491, -0.1280417, -0.0000769, 0.0000019⟩, ⟨0.548756, -0.0001269, -0.000011, 0⟩, 77.2, ⟨0.002605, -0.0001263, -0.0000109, 0⟩, 0.0045994, ⟨58.6025696, 15.0000095, 0, 0⟩⟩,
   ⟨0.0047209, 1891177122.5, ⟨-22.4454498, -0.005054, 0.000006, 0⟩, ⟨-0.063833, 0.5766353, -0.0000027, -0.0000095⟩, ⟨-1.059666, -0.0140165, 0.0002295, 0.0000001⟩, ⟨0.540642, 0.0000699, -0.0000128, 0⟩, 77.5, ⟨-0.005469, 0.0000695, -0.0000128, 0⟩, 0.0047446, ⟨47.3098488, 14.9971705, 0, 0⟩⟩,
   ⟨0.004589, 1906523922.2, ⟨22.0613003, 0.005581, -0.000005, 0⟩, ⟨-0.269391, 0.5056371, 0.0000182, -0.0000057⟩, ⟨0.551977, 0.021015, -0.0001586, -0.0000002⟩, ⟨0.56615, -0.000013, -0.0000097, 0⟩, 77.8, ⟨0.019912, -0.0000129, -0.0000097, 0⟩, 0.004612, ⟨270.5398254, 14.9996996, 0, 0⟩⟩,
   ⟨0.0047125, 1921820321.9, ⟨-20.7609997, -0.007989, 0.000005, 0⟩, ⟨0.04415, 0.5787798, 0.0000177, -0.0000098⟩, ⟨-0.39266, -0.0551891, 0.0001744, 0.0000008⟩, ⟨0.538213, -0.0000379, -0.000013, 0⟩, 78.1, ⟨-0.007885, -0.0000377, -0.000013, 0⟩, 0.0047361, ⟨288.2745972, 14.9983597, 0, 0⟩⟩,
   ⟨0.0045978, 1937113121.5, ⟨20.1591492, 0.008339, -0.000005, 0⟩, ⟨-0.114781, 0.5112392, 0.0000072, -0.000006⟩, ⟨-0.211248, 0.057933, -0.0001182, -0.0000006⟩, ⟨0.562405, 0.0000806, -0.00001, 0⟩, 78.5, ⟨0.016186, 0.0000802, -0.00001, 0⟩, 0.0046208, ⟨285.8511353, 15.0006199, 0, 0⟩⟩,
   ⟨0.0047025, 1952456321.2, ⟨-18.3368092, -0.010534, 0.000004, 0⟩, ⟨-0.019869, 0.550944, 0.0000366, -0.0000082⟩, ⟨0.314971, -0.0890652, 0.0001046, 0.0000012⟩, ⟨0.547774, -0.0001068, -0.000012, 0⟩, 78.8, ⟨0.001628, -0.0001063, -0.0000119, 0⟩, 0.004726, ⟨138.8939819, 14.9997597, 0, 0⟩⟩,
   ⟨0.0046079, 1967720320.9, ⟨17.5929108, 0.010694, -0.000004, 0⟩, ⟨-0.07436, 0.5359546, 0.0000052, -0.0000074⟩, ⟨-0.965451, 0.0954058, -0.0000702, -0.0000013⟩, ⟨0.548853, 0.0001272, -0.0000112, 0⟩, 79.1, ⟨0.002702, 0.0001266, -0.0000112, 0⟩, 0.004631, ⟨15.8891001, 15.0017405, 0, 0⟩⟩,
   ⟨0.0046906, 1983074320.5, ⟨-15.2399197, -0.012633, 0.000003, 0⟩, ⟨0.449239, 0.5120192, 0.000017, -0.0000064⟩, ⟨0.990836, -0.1128683, 0.0000452, 0.0000013⟩, ⟨0.562605, -0.0001127, -0.0000106, 0⟩, 79.5, ⟨0.016385, -0.0001121, -0.0000106, 0⟩, 0.0047141, ⟨274.1191101, 15.0012302, 0, 0⟩⟩,
   ⟨0.0046574, 1995818320.3, ⟨4.0936799, 0.015719, -0.000001, 0⟩, ⟨-0.318851, 0.5554244, 0.0000227, -0.0000094⟩, ⟨0.924667, 0.175661, -0.0000801, -0.0000029⟩, ⟨0.534943, 0.0000276, -0.0000129, 0⟩, 79.7, ⟨-0.011139, 0.0000275, -0.0000129, 0⟩, 0.0046807, ⟨88.9280777, 15.0044498, 0, 0⟩⟩,
   ⟨0.0046375, 2011096719.9, ⟨-0.33982, -0.015845, 0, 0⟩, ⟨-0.309996, 0.4815448, 0.0000087, -0.0000054⟩, ⟨-1.117005, -0.1545441, 0.0000478, 0.0000017⟩, ⟨0.568897, 0.0000318, -0.0000098, 0⟩, 80.1, ⟨0.022646, 0.0000316, -0.0000097, 0⟩, 0.0046607, ⟨31.9424591, 15.0047998, 0, 0⟩⟩,
   ⟨0.0046718, 2026461519.6, ⟨-0.05513, 0.016042, 0, 0⟩, ⟨-0.259609, 0.5481629, 0.0000234, -0.000009⟩, ⟨0.220752, 0.175579, -0.000008, -0.0000028⟩, ⟨0.538631, -0.0000665, -0.0000127, 0⟩, 80.4, ⟨-0.007469, -0.0000662, -0.0000126, 0⟩, 0.0046952, ⟨328.1391296, 15.0044002, 0, 0⟩⟩,
   ⟨0.004623, 2041689519.2, ⟨3.97191, -0.015534, -0.000001, 0⟩, ⟨-0.280906, 0.5028342, -0.0000107, -0.0000063⟩, ⟨-0.324339, -0.1577845, -0.0000008, 0.0000019⟩, ⟨0.557801, 0.0001188, -0.0000106, 0⟩, 80.8, ⟨0.011605, 0.0001182, -0.0000105, 0⟩, 0.0046461, ⟨60.9496994, 15.0049, 0, 0⟩⟩,
   ⟨0.0046861, 2057093918.9, ⟨-4.2733402, 0.01592, 0.000001, 0⟩, ⟨0.079469, 0.5205739, 0.000005, -0.0000073⟩, ⟨-0.432832, 0.1630945, 0.0000532, -0.0000022⟩, ⟨0.552623, -0.0001219, -0.0000114, 0⟩, 81.1, ⟨0.006453, -0.0001213, -0.0000114, 0⟩, 0.0047095, ⟨162.3961334, 15.0038996, 0, 0⟩⟩,
   ⟨0.0046097, 2072311118.5, ⟨8.0177097, -0.014783, -0.000002, 0⟩, ⟨0.134282, 0.5377735, -0.000036, -0.0000081⟩, ⟨0.349009, -0.1584651, -0.0000595, 0.0000023⟩, ⟨0.54192, 0.0001103, -0.0000119, 0⟩, 81.5, ⟨-0.004197, 0.0001098, -0.0000118, 0⟩, 0.0046328, ⟨210.0299835, 15.0046396, 0, 0⟩⟩,
   ⟨0.0046995, 2087701118.2, ⟨-8.4996901, 0.015281, 0.000002, 0⟩, ⟨0.444043, 0.4934011, -0.0000201, -0.0000058⟩, ⟨-1.114319, 0.1445403, 0.0000997, -0.0000016⟩, ⟨0.568192, -0.0000906, -0.0000102, 0⟩, 81.8, ⟨0.021945, -0.0000901, -0.0000102, 0⟩, 0.0047231, ⟨251.8083954, 15.0030003, 0, 0⟩⟩,
   ⟨0.0045789, 2100423517.9, ⟨19.8942108, -0.008537, -0.000005, 0⟩, ⟨0.090016, 0.5788221, -0.000018, -0.0000099⟩, ⟨-1.447814, -0.0733682, -0.0000547, 0.0000012⟩, ⟨0.530436, -0.0000306, -0.0000128, 0⟩, 82.1, ⟨-0.015624, -0.0000304, -0.0000127, 0⟩, 0.0046019, ⟨343.361908, 15.0012398, 0, 0⟩⟩,
   ⟨0.0045987, 2102950717.9, ⟨11.74119, -0.013646, -0.000002, 0⟩, ⟨0.036446, 0.5632887, -0.000028, -0.0000096⟩, ⟨1.1103849, -0.1496972, -0.0001354, 0.0000025⟩, ⟨0.531908, 0.0000445, -0.0000128, 0⟩, 82.1, ⟨-0.014158, 0.0000443, -0.0000127, 0⟩, 0.0046217, ⟨74.2591782, 15.0040302, 0, 0⟩⟩,
   ⟨0.0047303, 2115712717.6, ⟨-20.8301106, 0.007969, 0.000006, 0⟩, ⟨-0.013442, 0.5071025, -0.0000215, -0.0000058⟩, ⟨1.151491, 0.0475625, 0.0000875, -0.0000005⟩, ⟨0.572082, 0.0000633, -0.0000101, 0⟩, 82.4, ⟨0.025815, 0.000063, -0.0000101, 0⟩, 0.004754, ⟨327.5504456, 14.9978304, 0, 0⟩⟩,
   ⟨0.0045764, 2131066717.2, ⟨21.7824306, -0.006046, -0.000005, 0⟩, ⟨0.141501, 0.5635997, 0.0000001, -0.0000087⟩, ⟨-0.733707, -0.0318217, -0.0001131, 0.0000004⟩, ⟨0.538383, -0.0001101, -0.000012, 0⟩, 82.8, ⟨-0.007716, -0.0001096, -0.0000119, 0⟩, 0.0045993, ⟨223.5501251, 15.0002298, 0, 0⟩⟩]

/-- The selector loop of `getEclipseDefinition`, over an arbitrary table:
scan in order and return the first entry with `t0 + 4 * 3600 > t`;
`null` (here `none`) when the loop falls through. -/
def getEclipseDefinitionOn : List Bessel → ℚ → Option Bessel
  | [], _ => none
  | b :: rest, t => if b.t0 + 4 * 3600 > t then some b else getEclipseDefinitionOn rest t

/-- `getEclipseDefinition(t)`, SunLayer2.js lines 639-646. -/
def getEclipseDefinition (t : ℚ) : Option Bessel :=
  getEclipseDefinitionOn allBessel t

/-- Cubic evaluation `val[0] + t*val[1] + t*t*val[2] + t*t*t*val[3]` used
by `getElements` for each array-valued field. -/
def evalPoly (p : Poly4) (t : ℚ) : ℚ :=
  p.c0 + t * p.c1 + t * t * p.c2 + t * t * t * p.c3

/-- `getElements(t1)`, SunLayer2.js lines 650-664: `t = (t1 - bessel.t0)/3600`;
array-valued fields are interpolated with `evalPoly`, the rest pass
through unchanged.  The source iterates the fields generically
(`for (var ele in bessel)`); here each field is written out. -/
def getElements (b : Bessel) (t1 : ℚ) : Elements :=
  { tanf2 := b.tanf2
    t0 := b.t0
    d := evalPoly b.d ((t1 - b.t0) / 3600)
    x := evalPoly b.x ((t1 - b.t0) / 3600)
    y := evalPoly b.y ((t1 - b.t0) / 3600)
    l1 := evalPoly b.l1 ((t1 - b.t0) / 3600)
    deltat := b.deltat
    l2 := evalPoly b.l2 ((t1 - b.t0) / 3600)
    tanf1 := b.tanf1
    mu := evalPoly b.mu ((t1 - b.t0) / 3600) }

/-- The closure variable `bessel` of `initialize`, SunLayer2.js line 648:
the selector is applied once, to the clock value at initialisation, and
the result is captured for every later `update` tick. -/
def initBessel (tInit : ℚ) : Option Bessel :=
  getEclipseDefinition tInit

/-- The per-tick element computation of `update`, SunLayer2.js lines
1047-1050: `getElements(now)` followed by the out-of-window check
`if (Math.abs(now - elements.t0) > 4 * 3600) elements.deltat = -1`.
When the captured `bessel` is `null` the source dereferences
`bessel.t0` and throws; this is the `error` case. -/
def updateElements : Option Bessel → ℚ → Except Unit Elements
  | none, _ => .error ()
  | some b, now =>
    if 4 * 3600 < |now - (getElements b now).t0| then
      .ok { getElements b now with deltat := -1 }
    else
      .ok (getElements b now)

/-- The window in which the selector loop can return an entry as the
applicable one: `t0 - 4h ≤ t < t0 + 4h` (the loop tests only the right
end; the left end is what a containing window provides). -/
def inWindowCode (b : Bessel) (t : ℚ) : Prop :=
  b.t0 - 4 * 3600 ≤ t ∧ t < b.t0 + 4 * 3600

/-- Modelled from the spec: the Dataset Selector contract of claim C3 —
return the earliest entry whose closed window `[t0 - 4h, t0 + 4h]`
contains `now`, or none if no entry's window contains `now`. -/
def selectSpec : List Bessel → ℚ → Option Bessel
  | [], _ => none
  | b :: rest, t =>
    if b.t0 - 4 * 3600 ≤ t ∧ t ≤ b.t0 + 4 * 3600 then some b else selectSpec rest t

/-! ## Night-tile cache state machine
(`loadData` / `makeCallback` / `makeErrorCallback` / `dobindTexture`,
SunLayer2.js lines 767-987, generation handling lines 533-547, 628-629)

The geometric derivation of the cache key and tile grid from the map
viewport (`cWidth`, `cHeight`, `xOff`, `yOff`, `xMax`, `yMax`) uses the
external projection collaborator; a `Viewport` carries those derived
values.  Cities are identified by their `id` (the `canvasId` counter);
the source mutates city objects in place, which the model renders as an
id-keyed update of the city list — faithful because ids are unique
(`canvasId` increments at every allocation). -/

/-- Derived per-call inputs of `loadData`: the cache key fields of the
`newCity` candidate (`width = cWidth*2`, `height = cHeight*2`, `xOff`,
`yOff`, `zoom`) and the tile grid size (`xMax`, `yMax`). -/
structure Viewport where
  width : Int
  height : Int
  xOff : Int
  yOff : Int
  zoom : Int
  xMax : Nat
  yMax : Nat
deriving DecidableEq, Repr

/-- A composite-raster cache entry (`newCity` object): identity, key
fields, in-flight fetch count and the single deferred continuation slot.
The stored continuation is always `simpleBindShim(this, loadData)` — it
captures no data — so the slot is a flag. -/
structure City where
  id : Nat
  width : Int
  height : Int
  xOff : Int
  yOff : Int
  zoom : Int
  pending : Int
  onceLoaded : Bool
deriving DecidableEq, Repr

/-- State of one `initialize` closure together with the layer-level
generation counter: `layerGen` is `this.generation` (bumped by the
`webglcontextlost` handler), `ctxGen` the closure variable `generation`
captured at line 629, and `canvasId`, `cities`, `loadedCity`,
`textureUpdate`, `loadedTextureInfo` the closure variables of the same
names (`loadedTextureInfo` reduced to presence, `textureUpdate` to the
id of the city a bind is queued for). -/
structure CacheState where
  layerGen : Nat
  ctxGen : Nat
  canvasId : Nat
  cities : List City
  loadedCity : Option Nat
  textureUpdate : Option Nat
  loadedTextureInfo : Bool
deriving DecidableEq, Repr

/-- Observable actions of one tile-completion callback: whether it drew
into the raster (`context.drawImage`), queued a texture bind
(`textureUpdate = ...`), and invoked the `onceLoaded` continuation. -/
structure TileActions where
  drew : Bool
  queuedBind : Bool
  invokedOnce : Bool
deriving DecidableEq, Repr

/-- No observable action. -/
def noActions : TileActions := ⟨false, false, false⟩

/-- Look up a city object by id. -/
def getCity (s : CacheState) (cid : Nat) : Option City :=
  s.cities.find? (fun c => c.id == cid)

/-- In-place mutation of the city object with id `cid`. -/
def updateCity (cs : List City) (cid : Nat) (f : City → City) : List City :=
  cs.map (fun c => if c.id = cid then f c else c)

/-- `newCity.pending -= 1`. -/
def decPending (c : City) : City := { c with pending := c.pending - 1 }

/-- The `canSkipCanvasLoad` key comparison, SunLayer2.js line 864. -/
def keyMatches (c : City) (v : Viewport) : Bool :=
  c.width == v.width && c.height == v.height && c.xOff == v.xOff &&
    c.yOff == v.yOff && c.zoom == v.zoom

/-- `dobindTexture(canvas, newCity)`, lines 912-933: binds and records
the texture info only when the city is still the active `loadedCity`;
always clears `textureUpdate`. -/
def bindTexture (s : CacheState) (cid : Nat) : CacheState :=
  if s.loadedCity = some cid then
    { s with loadedTextureInfo := true, textureUpdate := none }
  else
    { s with textureUpdate := none }

/-- Allocation arm of `loadData`, lines 872-906: bump `canvasId`, create
the city with `pending = xMax * yMax`, issue the fetches, make it the
`loadedCity`, and bind immediately only when no texture was ever bound
(the first-raster special case of line 903). -/
def allocCity (s : CacheState) (v : Viewport) : CacheState :=
  let newId := s.canvasId + 1
  let city : City :=
    { id := newId, width := v.width, height := v.height, xOff := v.xOff, yOff := v.yOff,
      zoom := v.zoom, pending := (v.xMax : Int) * (v.yMax : Int), onceLoaded := false }
  let s1 := { s with canvasId := newId, cities := city :: s.cities, loadedCity := some newId }
  if s1.loadedTextureInfo then s1 else bindTexture s1 newId

/-- `loadData`, lines 767-910, for `zoom ≤ 8` viewports: dedup on key
match, defer (store the continuation, overwriting any previous one) when
the active load still has `pending > 0`, otherwise allocate. -/
def loadData (s : CacheState) (v : Viewport) : CacheState :=
  if v.zoom ≤ 8 then
    match s.loadedCity.bind (getCity s) with
    | some lc =>
      if keyMatches lc v then s
      else if 0 < lc.pending then
        { s with cities := updateCity s.cities lc.id (fun c => { c with onceLoaded := true }) }
      else allocCity s v
    | none => allocCity s v
  else s

/-- `{ s with cities := ... onceLoaded := false }`: the
`newCity.onceLoaded = null` clearing after the continuation fires. -/
def clearOnce (s : CacheState) (cid : Nat) : CacheState :=
  { s with cities := updateCity s.cities cid (fun c => { c with onceLoaded := false }) }

/-- Guarded body of a completion callback (everything inside
`if (newCity == loadedCity && newCity.is_current())`), applied to the
already-decremented state and the looked-up city: on `pending <= 0`,
queue the texture bind, run the stored continuation (the re-invocation
of `loadData` against the current viewport `v`), then clear the slot. -/
def tileFinish (s1 : CacheState) (cid : Nat) (success : Bool) (v : Viewport) :
    Option City → CacheState × TileActions
  | none => (s1, ⟨success, false, false⟩)
  | some c1 =>
    if c1.pending ≤ 0 then
      (clearOnce
        (if c1.onceLoaded then loadData { s1 with textureUpdate := some cid } v
         else { s1 with textureUpdate := some cid }) cid,
       ⟨success, true, c1.onceLoaded⟩)
    else (s1, ⟨success, false, false⟩)

/-- One completion callback (`makeCallback` for `success = true`,
`makeErrorCallback` for `success = false`, lines 935-975): decrement
`pending` unconditionally, then run the guarded body only when the city
is still the active `loadedCity` and its captured generation equals the
current one (`is_current`, line 858). -/
def tileComplete (s : CacheState) (cid : Nat) (success : Bool) (v : Viewport) :
    CacheState × TileActions :=
  let s1 := { s with cities := updateCity s.cities cid decPending }
  if s.loadedCity = some cid ∧ s.layerGen = s.ctxGen then
    tileFinish s1 cid success v (getCity s1 cid)
  else (s1, noActions)

/-- The `webglcontextlost` handler, lines 537-540: `generation += 1`. -/
def bumpGeneration (s : CacheState) : CacheState := { s with layerGen := s.layerGen + 1 }

/-- A fresh `initialize` closure state: counters zero, no cities, no
bound texture. -/
def freshState : CacheState := ⟨0, 0, 0, [], none, none, false⟩

/-- A demonstration viewport with a `1 × 2` tile grid. -/
def demoViewA : Viewport := ⟨256, 256, 0, 0, 1, 1, 2⟩

/-- A second demonstration viewport with a different cache key. -/
def demoViewB : Viewport := ⟨512, 512, 1, 0, 1, 2, 2⟩

example : fragColor 0 0 1 0 1 (1/2) 0 0 0 0 = (0, 1) := by
  norm_num [fragColor, eclipseObsOvr, eclipseTail, baseObs, twilight, twilightMid, zeroOverride, clamp01,
    abs_of_pos]

example : fragColor 1 1 0 0 0 0 (-1) 0 0 0 = (-(7/100), 1) := by
  norm_num [fragColor, eclipseObsOvr, eclipseTail, baseObs, twilight, twilightMid, zeroOverride, clamp01]

example : twilight 0 0 = 1/2 := by norm_num [twilight, twilightMid]

lemma clamp01_mem (x : ℚ) : 0 ≤ clamp01 x ∧ clamp01 x ≤ 1 := by
  unfold clamp01
  split_ifs <;> constructor <;> linarith

lemma ramp_mem (f obs : ℚ) (hf0 : 0 ≤ f) (hf1 : f ≤ 1)
    (h1 : 95 / 100 < obs) (h2 : obs ≤ 1) :
    0 ≤ (obs - 95 / 100) * (1 - 95 / 100 * f) / (1 - 95 / 100) + 95 / 100 * f ∧
      (obs - 95 / 100) * (1 - 95 / 100 * f) / (1 - 95 / 100) + 95 / 100 * f ≤ 1 := by
  have hB : (0 : ℚ) ≤ 1 - 95 / 100 * f := by nlinarith
  have h20 : (obs - 95 / 100) * (1 - 95 / 100 * f) / (1 - 95 / 100)
      = (obs - 95 / 100) * (1 - 95 / 100 * f) * 20 := by
    rw [div_eq_mul_inv]
    norm_num
  rw [h20]
  constructor
  · nlinarith
  · nlinarith [mul_le_mul_of_nonneg_right
      (show 20 * (obs - 95 / 100) ≤ 1 by linarith) hB]

lemma eclipseTail_ovr_mem (f L1 L2 d1 ovr0 : ℚ) (hf0 : 0 ≤ f) (hf1 : f ≤ 1)
    (hobs1 : 95 / 100 < baseObs L1 L2 d1 → baseObs L1 L2 d1 ≤ 1)
    (h0 : 0 ≤ ovr0) (h1 : ovr0 ≤ 1) :
    0 ≤ (eclipseTail f L1 L2 d1 ovr0).2 ∧ (eclipseTail f L1 L2 d1 ovr0).2 ≤ 1 := by
  unfold eclipseTail
  split_ifs with hcut
  · exact ramp_mem f _ hf0 hf1 hcut (hobs1 hcut)
  · exact ⟨h0, h1⟩

lemma eclipseOvr_mem (f dt d L1 L2 : ℚ) (hd : 0 ≤ d) (hf0 : 0 ≤ f) (hf1 : f ≤ 1) :
    0 ≤ (eclipseObsOvr f dt d L1 L2).2 ∧ (eclipseObsOvr f dt d L1 L2).2 ≤ 1 := by
  unfold eclipseObsOvr
  split_ifs with hdt hdL hum
  · -- umbra taken: d1 = |L2|, ovr0 = 1
    have hL1 : 0 < L1 := lt_of_le_of_lt hd hdL
    refine eclipseTail_ovr_mem f L1 L2 _ _ hf0 hf1 (fun hcut => ?_) (by norm_num) le_rfl
    unfold baseObs at hcut ⊢
    rcases lt_trichotomy (L1 + L2) 0 with hs | hs | hs
    · have hL2neg : L2 < 0 := by linarith
      have habs : |L2| = -L2 := abs_of_neg hL2neg
      rw [habs]
      have hnum : L1 - -L2 = L1 + L2 := by ring
      rw [hnum, div_self (ne_of_lt hs)]
    · rw [hs, div_zero]; norm_num
    · rw [div_le_one hs]
      have := neg_abs_le L2
      linarith
  · -- annulus: |L2| ≤ d < L1, ovr0 = 0
    have hL1 : 0 < L1 := lt_of_le_of_lt hd hdL
    have hdge : |L2| ≤ d := not_lt.mp hum
    refine eclipseTail_ovr_mem f L1 L2 _ _ hf0 hf1 (fun hcut => ?_) le_rfl (by norm_num)
    unfold baseObs at hcut ⊢
    rcases lt_trichotomy (L1 + L2) 0 with hs | hs | hs
    · have habs : |L2| = -L2 := abs_of_neg (by linarith)
      exfalso
      rw [habs] at hdge
      linarith
    · rw [hs, div_zero]; norm_num
    · rw [div_le_one hs]
      have := neg_abs_le L2
      linarith
  · norm_num
  · norm_num

lemma zeroOverride_mem (ovr a : ℚ) (h0 : 0 ≤ ovr) (h1 : ovr ≤ 1) :
    0 ≤ zeroOverride ovr a ∧ zeroOverride ovr a ≤ 1 := by
  unfold zeroOverride
  split_ifs <;> constructor <;> linarith

/-- Claim C9: for every sample, every interpolated-elements input (with the
shadow distance `d = sqrt(d2)` necessarily nonnegative) and every configured
obscure factor in `[0,1]`, the alpha value written by the fragment shader,
`max(overrideObs, u_obscureFactor * obs)`, lies in `[0,1]`. -/
theorem C9_alpha_in_unit_interval (f ce dt d L1 L2 a r g b : ℚ)
    (hd : 0 ≤ d) (hf0 : 0 ≤ f) (hf1 : f ≤ 1) :
    0 ≤ (fragColor f ce dt d L1 L2 a r g b).2 ∧
      (fragColor f ce dt d L1 L2 a r g b).2 ≤ 1 := by
  have hovr := eclipseOvr_mem f dt d L1 L2 hd hf0 hf1
  have hzo := zeroOverride_mem _ a hovr.1 hovr.2
  have hobs := clamp01_mem (twilight (eclipseObsOvr f dt d L1 L2).1 a)
  have halpha : (fragColor f ce dt d L1 L2 a r g b).2
      = max (zeroOverride (eclipseObsOvr f dt d L1 L2).2 a)
          (f * clamp01 (twilight (eclipseObsOvr f dt d L1 L2).1 a)) := by
    unfold fragColor
    dsimp only
    split_ifs <;> rfl
  rw [halpha]
  constructor
  · exact le_max_of_le_left hzo.1
  · exact max_le hzo.2 (mul_le_one₀ hf1 hobs.1 hobs.2)

/-- Witness for C9 at the configured obscure factor `0.65` of the source. -/
theorem C9_alpha_in_unit_interval_witness :
    0 ≤ (fragColor (65/100) 1 1 0 1 0 0 1 1 1).2 ∧
      (fragColor (65/100) 1 1 0 1 0 0 1 1 1).2 ≤ 1 :=
  C9_alpha_in_unit_interval (65/100) 1 1 0 1 0 0 1 1 1
    (by norm_num) (by norm_num) (by norm_num)

/-- Counterexample to claim C6.  The claim states that `overrideObs` is
zeroed whenever the solar altitude is `≥ 0`; the shader zeroes it only
for altitude `< 0`.  At altitude `a = 0` with an override of `4/5`
produced by the cutoff ramp (`deltat = 1 > 0`, `d = 1/100`, `L1 = 1`,
`L2 = 0`, obscure factor `0`), the override survives: the zeroing step
keeps it and the fragment alpha is `4/5`, not the `0` the claim would
force (with obscure factor `0` the alpha is exactly the override). -/
theorem C6_counterexample :
    zeroOverride (4/5) 0 = 4/5 ∧ fragColor 0 0 1 (1/100) 1 0 0 0 0 0 = (0, 4/5) := by
  norm_num [fragColor, eclipseObsOvr, eclipseTail, baseObs, twilight, twilightMid,
    zeroOverride, clamp01]

/-- Claim C6 (amended): the eclipse override term is zeroed whenever the
computed solar altitude is strictly negative — so for negative altitude
the fragment alpha is just `u_obscureFactor * obs` — and for altitude
`≥ 0` the override of the eclipse block is left unchanged. -/
theorem C6_override_zeroing (f ce dt d L1 L2 a r g b : ℚ) (hf0 : 0 ≤ f) :
    (a < 0 → (fragColor f ce dt d L1 L2 a r g b).2 = f * finalObs f dt d L1 L2 a) ∧
      (0 ≤ a → (fragColor f ce dt d L1 L2 a r g b).2
        = max (eclipseObsOvr f dt d L1 L2).2 (f * finalObs f dt d L1 L2 a)) := by
  have halpha : (fragColor f ce dt d L1 L2 a r g b).2
      = max (zeroOverride (eclipseObsOvr f dt d L1 L2).2 a) (f * finalObs f dt d L1 L2 a) := by
    unfold fragColor finalObs
    dsimp only
    split_ifs <;> rfl
  constructor
  · intro ha
    rw [halpha]
    unfold zeroOverride
    rw [if_pos ha]
    exact max_eq_right (mul_nonneg hf0 (clamp01_mem _).1)
  · intro ha
    rw [halpha]
    unfold zeroOverride
    rw [if_neg (not_lt.mpr ha)]

/-- Witness for the amended C6 at a strictly negative altitude and at
altitude `0`. -/
theorem C6_override_zeroing_witness :
    (fragColor 1 1 1 0 1 0 (-1) 0 0 0).2 = 1 * finalObs 1 1 0 1 0 (-1) ∧
      (fragColor 1 1 1 0 1 0 0 0 0 0).2
        = max (eclipseObsOvr 1 1 0 1 0).2 (1 * finalObs 1 1 0 1 0 0) :=
  ⟨(C6_override_zeroing 1 1 1 0 1 0 (-1) 0 0 0 (by norm_num)).1 (by norm_num),
   (C6_override_zeroing 1 1 1 0 1 0 0 0 0 0 (by norm_num)).2 (by norm_num)⟩

/-- Claim C7: the twilight blend is continuous at the band boundaries
`±0.018`: the middle (blend) branch evaluated at altitude `0.018` agrees
with the day-side value `obs`, and evaluated at `-0.018` it agrees with
the night value `1`, which are also the values the piecewise function
takes there; and at altitude exactly `0` with no eclipse contribution
(`obs = 0`) the blended obscuration is `1/2`. -/
theorem C7_twilight_boundary (obs : ℚ) :
    twilightMid obs (18/1000) = obs ∧ twilight obs (18/1000) = obs ∧
      twilightMid obs (-(18/1000)) = 1 ∧ twilight obs (-(18/1000)) = 1 ∧
      twilight 0 0 = 1/2 := by
  refine ⟨?_, ?_, ?_, ?_, ?_⟩ <;> norm_num [twilight, twilightMid]

/-- Claim C8: within the penumbral band (`|L2| ≤ d < L1`, radii fixed),
the base obscuration `obs = (L1 - d) / (L1 + L2)` is monotonically
non-increasing in the distance `d` from the shadow axis. -/
theorem C8_baseObs_antitone (L1 L2 d1 d2 : ℚ)
    (h1 : |L2| ≤ d1) (h2 : d1 ≤ d2) (h3 : d2 < L1) :
    baseObs L1 L2 d2 ≤ baseObs L1 L2 d1 := by
  have hs : 0 < L1 + L2 := by
    have hn := neg_abs_le L2
    have ha := abs_nonneg L2
    linarith
  unfold baseObs
  exact (div_le_div_iff_of_pos_right hs).mpr (by linarith)

/-- Witness for C8: `d1 = 1/4`, `d2 = 1/2` inside the band of
`L1 = 1`, `L2 = 1/8`. -/
theorem C8_baseObs_antitone_witness :
    baseObs 1 (1/8) (1/2) ≤ baseObs 1 (1/8) (1/4) :=
  C8_baseObs_antitone 1 (1/8) (1/4) (1/2)
    (by norm_num [abs_of_pos]) (by norm_num) (by norm_num)

/-- Counterexample to claim C10.  The claim states the city-light
luminance is floored at 0 (never negative); the shader applies no floor:
with full night (`altitude = -1`, so `obs = 1`), city lights enabled and
a black night-raster sample, the luminance written to `gl_FragColor` is
`(0/3 - 0.1) * ((1 - 0.9) * 7) = -7/100 < 0`. -/
theorem C10_counterexample :
    (fragColor 1 1 0 0 0 0 (-1) 0 0 0).1 = -(7/100) ∧ (-(7/100) : ℚ) < 0 := by
  norm_num [fragColor, eclipseObsOvr, eclipseTail, baseObs, twilight, twilightMid,
    zeroOverride, clamp01]

/-- Claim C10 (amended): the city-light luminance is computed only when
the final obscuration exceeds `0.90` and city lights are enabled
(otherwise the colour channels are `0`); when active it equals
`(avg(nightSample) - 0.1) * ((obs - 0.90) * 7)` — a linear ramp in `obs`
from `0` at `obs = 0.90`, scaled by the average night sample minus `0.1`
— and it is nonnegative whenever that average is at least `0.1`, but no
floor is applied, so it is negative for darker samples. -/
theorem C10_city_lights (f ce dt d L1 L2 a r g b : ℚ) :
    (¬(90/100 < finalObs f dt d L1 L2 a ∧ 0 < ce) →
      (fragColor f ce dt d L1 L2 a r g b).1 = 0) ∧
    (90/100 < finalObs f dt d L1 L2 a → 0 < ce →
      (fragColor f ce dt d L1 L2 a r g b).1
        = ((r + g + b)/3 - 1/10) * ((finalObs f dt d L1 L2 a - 90/100) * 7)) ∧
    (90/100 < finalObs f dt d L1 L2 a → 0 < ce → 1/10 ≤ (r + g + b)/3 →
      0 ≤ (fragColor f ce dt d L1 L2 a r g b).1) := by
  have hsplit : ∀ hc : 90/100 < finalObs f dt d L1 L2 a ∧ 0 < ce,
      (fragColor f ce dt d L1 L2 a r g b).1
        = ((r + g + b)/3 - 1/10) * ((finalObs f dt d L1 L2 a - 90/100) * 7) := by
    intro hc
    unfold finalObs at hc ⊢
    unfold fragColor
    dsimp only
    rw [if_pos hc]
  have hneg : ¬(90/100 < finalObs f dt d L1 L2 a ∧ 0 < ce) →
      (fragColor f ce dt d L1 L2 a r g b).1 = 0 := by
    intro hc
    unfold finalObs at hc
    unfold fragColor
    dsimp only
    rw [if_neg hc]
  refine ⟨hneg, fun h1 h2 => hsplit ⟨h1, h2⟩, fun h1 h2 h3 => ?_⟩
  rw [hsplit ⟨h1, h2⟩]
  have : (0:ℚ) ≤ (finalObs f dt d L1 L2 a - 90/100) * 7 := by nlinarith
  exact mul_nonneg (by linarith) this

/-- Witness for the amended C10: with city lights disabled the channels
are `0`; at full night with a white night sample the luminance is the
ramp value `(1 - 1/10) * ((1 - 9/10) * 7) = 63/100 ≥ 0`. -/
theorem C10_city_lights_witness :
    (fragColor 1 0 0 0 1 0 (-1) 1 1 1).1 = 0 ∧
    (fragColor 1 1 0 0 1 0 (-1) 1 1 1).1
      = ((1 + 1 + 1)/3 - 1/10) * ((finalObs 1 0 0 1 0 (-1) - 90/100) * 7) ∧
    0 ≤ (fragColor 1 1 0 0 1 0 (-1) 1 1 1).1 := by
  have hobs : (90:ℚ)/100 < finalObs 1 0 0 1 0 (-1) := by
    norm_num [finalObs, eclipseObsOvr, eclipseTail, baseObs, twilight, twilightMid, clamp01]
  refine ⟨(C10_city_lights 1 0 0 0 1 0 (-1) 1 1 1).1 ?_,
    (C10_city_lights 1 1 0 0 1 0 (-1) 1 1 1).2.1 hobs (by norm_num),
    (C10_city_lights 1 1 0 0 1 0 (-1) 1 1 1).2.2 hobs (by norm_num) (by norm_num)⟩
  intro hc
  exact absurd hc.2 (by norm_num)

example : (getEclipseDefinition 1495000000).map Bessel.t0 = some 1503338331.2 := by
  norm_num [getEclipseDefinition, getEclipseDefinitionOn, allBessel, bessel0, bessel1]

/-- Counterexample to claim C3.  At `now = 1495000000` (in the gap
between the 2017-02-26 and 2017-08-21 windows) no entry's window
contains `now`, so the claimed contract returns none — but
`getEclipseDefinition` returns the next upcoming entry
(`t0 = 1503338331.2`), whose window does not contain `now`. -/
theorem C3_counterexample :
    selectSpec allBessel 1495000000 = none ∧
      (getEclipseDefinition 1495000000).map Bessel.t0 = some 1503338331.2 := by
  constructor
  · norm_num [selectSpec, allBessel, bessel0, bessel1]
  · norm_num [getEclipseDefinition, getEclipseDefinitionOn, allBessel, bessel0, bessel1]

/-- Claim C3 (amended): on a table with strictly increasing `t0`,
`getEclipseDefinition` returns none exactly when `now` is at or past the
right end `t0 + 4h` of every entry's window, and whenever some entry's
window contains `now` (with none earlier containing it) it returns that
earliest containing entry; for `now` in a gap it returns the next
upcoming entry (see the counterexample) rather than none. -/
theorem C3_selector_first_window (l : List Bessel) (t : ℚ)
    (hsort : List.Pairwise (fun p q => p.t0 < q.t0) l) :
    (getEclipseDefinitionOn l t = none ↔ ∀ b ∈ l, b.t0 + 4 * 3600 ≤ t) ∧
    (∀ i (hi : i < l.length), inWindowCode (l.get ⟨i, hi⟩) t →
      (∀ j (hj : j < l.length), j < i → ¬ inWindowCode (l.get ⟨j, hj⟩) t) →
      getEclipseDefinitionOn l t = some (l.get ⟨i, hi⟩)) := by
  induction l with
  | nil =>
    constructor
    · simp [getEclipseDefinitionOn]
    · intro i hi
      exact absurd hi (by simp)
  | cons b rest ih =>
    obtain ⟨hhead, htail⟩ := List.pairwise_cons.mp hsort
    have ihh := ih htail
    by_cases hb : b.t0 + 4 * 3600 > t
    · have hres : getEclipseDefinitionOn (b :: rest) t = some b := by
        unfold getEclipseDefinitionOn
        rw [if_pos hb]
      constructor
      · rw [hres]
        constructor
        · intro h
          exact absurd h (by simp)
        · intro hall
          exact absurd (hall b (List.mem_cons_self b rest)) (not_le.mpr hb)
      · intro i hi hwin hmin
        match i with
        | 0 => rw [hres]; rfl
        | Nat.succ n =>
          exfalso
          have hnb : ¬ inWindowCode b t := by
            simpa using hmin 0 (by simp) (Nat.succ_pos n)
          have hlt : t < b.t0 - 4 * 3600 := by
            unfold inWindowCode at hnb
            push_neg at hnb
            rcases lt_or_le t (b.t0 - 4 * 3600) with h | h
            · exact h
            · exact absurd (hnb h) (not_le.mpr hb)
          have hn : n < rest.length := by
            simpa using hi
          have hmem : rest.get ⟨n, hn⟩ ∈ rest := List.get_mem rest n hn
          have hord := hhead _ hmem
          have hwin' : inWindowCode (rest.get ⟨n, hn⟩) t := by
            simpa using hwin
          have := hwin'.1
          unfold inWindowCode at hwin'
          linarith [hwin'.1]
    · have hres : getEclipseDefinitionOn (b :: rest) t = getEclipseDefinitionOn rest t := by
        simp only [getEclipseDefinitionOn]
        rw [if_neg hb]
      have hble : b.t0 + 4 * 3600 ≤ t := not_lt.mp hb
      constructor
      · rw [hres, ihh.1]
        constructor
        · intro hall b' hb'
          rcases List.mem_cons.mp hb' with h | h
          · rw [h]; exact hble
          · exact hall b' h
        · intro hall b' hb'
          exact hall b' (List.mem_cons_of_mem _ hb')
      · intro i hi hwin hmin
        match i with
        | 0 =>
          exfalso
          have hw : inWindowCode b t := by simpa using hwin
          exact absurd hw.2 (not_lt.mpr hble)
        | Nat.succ n =>
          rw [hres]
          have hn : n < rest.length := by simpa using hi
          have hwin' : inWindowCode (rest.get ⟨n, hn⟩) t := by simpa using hwin
          have hmin' : ∀ j (hj : j < rest.length), j < n →
              ¬ inWindowCode (rest.get ⟨j, hj⟩) t := by
            intro j hj hjn
            have := hmin (j + 1) (by simpa using Nat.succ_lt_succ hj) (Nat.succ_lt_succ hjn)
            simpa using this
          have hr := ihh.2 n hn hwin' hmin'
          rw [hr]
          rfl

/-- Witness for the amended C3 on the two named table entries at the
2017-02-26 initialisation instant. -/
theorem C3_selector_first_window_witness :
    getEclipseDefinitionOn [bessel0, bessel1] 1488121131 = some bessel0 := by
  have h := C3_selector_first_window [bessel0, bessel1] 1488121131
    (by norm_num [List.pairwise_cons, bessel0, bessel1])
  have h2 := h.2 0 (by norm_num) (by norm_num [inWindowCode, bessel0])
    (fun j hj hj0 => absurd hj0 (Nat.not_lt_zero j))
  simpa using h2

lemma updateElements_none (t : ℚ) : updateElements none t = .error () := rfl

lemma updateElements_some_ok (b : Bessel) (now : ℚ) :
    ∃ e, updateElements (some b) now = .ok e := by
  simp only [updateElements]
  split_ifs
  · exact ⟨_, rfl⟩
  · exact ⟨_, rfl⟩

lemma updateElements_some_t0 (b : Bessel) (now : ℚ) :
    (updateElements (some b) now).toOption.map Elements.t0 = some b.t0 := by
  simp only [updateElements]
  split_ifs
  · simp [getElements, Except.toOption]
  · simp [getElements, Except.toOption]

lemma updateElements_some_deltat (b : Bessel) (now : ℚ)
    (h : 4 * 3600 < |now - b.t0|) :
    (updateElements (some b) now).toOption.map Elements.deltat = some (-1) := by
  simp only [updateElements]
  have hcond : 4 * 3600 < |now - (getElements b now).t0| := by
    simpa [getElements] using h
  rw [if_pos hcond]
  simp [Except.toOption]

/-- Counterexample to claim C4.  `bessel` is captured once by
`initialize` (line 648); `update` never re-applies the selector.  With
initialisation at `1488121131` (inside the 2017-02-26 window) and a tick
at `now = 1503338331` (inside the 2017-08-21 window, whose entry has
`t0 = 1503338331.2`), the elements are still interpolated from the
2017-02-26 entry (`t0 = 1488121131.4`) and carry the sentinel
`deltat = -1` — not the dataset applicable to `now`. -/
theorem C4_counterexample :
    (getEclipseDefinition 1503338331).map Bessel.t0 = some 1503338331.2 ∧
    (updateElements (initBessel 1488121131) 1503338331).toOption.map Elements.t0
      = some 1488121131.4 ∧
    (updateElements (initBessel 1488121131) 1503338331).toOption.map Elements.deltat
      = some (-1) ∧
    (1488121131.4 : ℚ) ≠ 1503338331.2 := by
  have hinit : initBessel 1488121131 = some bessel0 := by
    norm_num [initBessel, getEclipseDefinition, getEclipseDefinitionOn, allBessel, bessel0]
  have habs : (4 : ℚ) * 3600 < |(1503338331 : ℚ) - bessel0.t0| := by
    have hval : (1503338331 : ℚ) - bessel0.t0 = -15217200.4 + 30434400 := by
      norm_num [bessel0]
    rw [hval, abs_of_pos] <;> norm_num
  refine ⟨?_, ?_, ?_, by norm_num⟩
  · norm_num [getEclipseDefinition, getEclipseDefinitionOn, allBessel, bessel0, bessel1]
  · rw [hinit, updateElements_some_t0]
    norm_num [bessel0]
  · rw [hinit]
    exact updateElements_some_deltat bessel0 1503338331 habs

/-- Claim C4 (amended): the Dataset Selector runs once, at
initialisation; every later evaluation interpolates from that captured
dataset regardless of `now` — its `t0` is always the initialisation-time
dataset's `t0` — and only the per-tick window check can disable the
eclipse term by overwriting `deltat` with `-1`. -/
theorem C4_elements_from_init_dataset (tInit now : ℚ) (b : Bessel)
    (hb : initBessel tInit = some b) :
    (updateElements (initBessel tInit) now).toOption.map Elements.t0 = some b.t0 ∧
      (4 * 3600 < |now - b.t0| →
        (updateElements (initBessel tInit) now).toOption.map Elements.deltat = some (-1)) := by
  rw [hb]
  exact ⟨updateElements_some_t0 b now, fun h => updateElements_some_deltat b now h⟩

/-- Witness for the amended C4: initialisation at `1488121131` captures
the 2017-02-26 entry; a tick five months later still reports its `t0`
and the sentinel. -/
theorem C4_elements_from_init_dataset_witness :
    (updateElements (initBessel 1488121131) 1503338331).toOption.map Elements.t0
      = some bessel0.t0 ∧
    (updateElements (initBessel 1488121131) 1503338331).toOption.map Elements.deltat
      = some (-1) := by
  have habs : (4 : ℚ) * 3600 < |(1503338331 : ℚ) - bessel0.t0| := by
    have hval : (1503338331 : ℚ) - bessel0.t0 = -15217200.4 + 30434400 := by
      norm_num [bessel0]
    rw [hval, abs_of_pos] <;> norm_num
  have h := C4_elements_from_init_dataset 1488121131 1503338331 bessel0
    (by norm_num [initBessel, getEclipseDefinition, getEclipseDefinitionOn, allBessel, bessel0])
  exact ⟨h.1, h.2 habs⟩

/-- Counterexample to claim C5.  For an instant past the right end of
the last entry's window (`2131066717.2 + 14400 < 2131081118`) the
selector returns none, and producing elements then fails (the source
dereferences `bessel.t0` on `null`) instead of yielding sentinel
elements with `deltat = -1`. -/
theorem C5_counterexample :
    getEclipseDefinition 2131081118 = none ∧
    updateElements (initBessel 2131081118) 2131081118 = .error () := by
  have hnone : getEclipseDefinition 2131081118 = none := by
    norm_num [getEclipseDefinition, getEclipseDefinitionOn, allBessel, bessel0, bessel1]
  refine ⟨hnone, ?_⟩
  rw [show initBessel 2131081118 = none from hnone]
  exact updateElements_none 2131081118

/-- Claim C5 (amended): evaluation never fails provided a dataset was
captured at initialisation — any instant then yields elements, with
`deltat` overwritten by the sentinel `-1` when the instant is more than
four hours from the captured `t0` — but when the selector returned none
at initialisation, every evaluation fails instead of producing sentinel
elements. -/
theorem C5_sentinel_or_error (b : Bessel) (now : ℚ) :
    (∃ e, updateElements (some b) now = .ok e) ∧
      (4 * 3600 < |now - b.t0| →
        (updateElements (some b) now).toOption.map Elements.deltat = some (-1)) ∧
      (∀ t : ℚ, updateElements none t = .error ()) :=
  ⟨updateElements_some_ok b now,
   fun h => updateElements_some_deltat b now h,
   fun t => updateElements_none t⟩

/-- Witness for the amended C5 on the 2017-02-26 entry at an instant
five hours after its `t0`. -/
theorem C5_sentinel_or_error_witness :
    (updateElements (some bessel0) (1488121131.4 + 5 * 3600)).toOption.isSome = true ∧
      (updateElements (some bessel0) (1488121131.4 + 5 * 3600)).toOption.map Elements.deltat
        = some (-1) ∧
      updateElements none 0 = .error () := by
  have habs : (4 : ℚ) * 3600 < |(1488121131.4 + 5 * 3600 : ℚ) - bessel0.t0| := by
    have hval : (1488121131.4 + 5 * 3600 : ℚ) - bessel0.t0 = 18000 := by
      norm_num [bessel0]
    rw [hval, abs_of_pos] <;> norm_num
  have h := C5_sentinel_or_error bessel0 (1488121131.4 + 5 * 3600)
  obtain ⟨e, he⟩ := h.1
  refine ⟨?_, h.2.1 habs, h.2.2 0⟩
  rw [he]
  rfl

example : (loadData freshState demoViewA).canvasId = 1 := by decide

example : (getCity (loadData freshState demoViewA) 1).map City.pending = some 2 := by decide

example : loadData (loadData freshState demoViewA) demoViewA = loadData freshState demoViewA := by
  decide

lemma getCity_updateCity (s : CacheState) (cid uid : Nat) (f : City → City)
    (hf : ∀ c, (f c).id = c.id) :
    getCity { s with cities := updateCity s.cities uid f } cid
      = (getCity s cid).map (fun c => if c.id = uid then f c else c) := by
  unfold getCity updateCity
  dsimp only
  rw [List.find?_map]
  have hp : ((fun c => c.id == cid) ∘ fun c => if c.id = uid then f c else c)
      = (fun c : City => c.id == cid) := by
    funext c
    by_cases h : c.id = uid
    · simp [Function.comp, h, hf]
    · simp [Function.comp, h]
  rw [hp]

lemma getCity_updateCity_self (s : CacheState) (cid : Nat) (f : City → City) (c0 : City)
    (hf : ∀ c, (f c).id = c.id) (hget : getCity s cid = some c0) :
    getCity { s with cities := updateCity s.cities cid f } cid = some (f c0) := by
  rw [getCity_updateCity s cid cid f hf, hget]
  have hc0 : c0.id = cid := by
    have := List.find?_some hget
    simpa using this
  simp [hc0]

lemma getCity_cities_eq (s s' : CacheState) (cid : Nat) (h : s'.cities = s.cities) :
    getCity s' cid = getCity s cid := by
  unfold getCity
  rw [h]

lemma getCity_allocCity_isSome (s : CacheState) (v : Viewport) (cid : Nat)
    (hcid : cid ≤ s.canvasId) (h : (getCity s cid).isSome) :
    (getCity (allocCity s v) cid).isSome := by
  unfold allocCity
  dsimp only
  have hne : (s.canvasId + 1 == cid) = false := beq_eq_false_iff_ne.mpr (by omega)
  have hfind : ∀ t : CacheState, t.cities =
      ({ id := s.canvasId + 1, width := v.width, height := v.height, xOff := v.xOff,
         yOff := v.yOff, zoom := v.zoom, pending := (v.xMax : Int) * (v.yMax : Int),
         onceLoaded := false } : City) :: s.cities → (getCity t cid).isSome := by
    intro t ht
    unfold getCity at h ⊢
    rw [ht]
    simp only [List.find?_cons, hne]
    exact h
  split_ifs with hb
  · exact hfind _ rfl
  · unfold bindTexture
    split_ifs <;> exact hfind _ rfl

lemma getCity_loadData_isSome (s : CacheState) (v : Viewport) (cid : Nat)
    (hcid : cid ≤ s.canvasId) (h : (getCity s cid).isSome) :
    (getCity (loadData s v) cid).isSome := by
  unfold loadData
  split_ifs with hz
  · cases hlc : s.loadedCity.bind (getCity s) with
    | none => exact getCity_allocCity_isSome s v cid hcid h
    | some lc =>
      dsimp only
      split_ifs with hk hp
      · exact h
      · rw [getCity_updateCity s cid lc.id (fun c => { c with onceLoaded := true })
          (fun c => rfl)]
        cases hg : getCity s cid with
        | none => rw [hg] at h; exact absurd h (by simp)
        | some c => simp
      · exact getCity_allocCity_isSome s v cid hcid h
  · exact h

/-- Claim C2: a completion callback whose captured generation no longer
equals the current layer generation, or whose cache entry is no longer
the active `loadedCity`, only performs the unconditional `pending`
decrement: it does not draw into the raster, does not queue a texture
bind, and does not invoke the `onceLoaded` continuation, regardless of
the value `pending` reaches. -/
theorem C2_stale_completion_inert (s : CacheState) (cid : Nat) (success : Bool) (v : Viewport)
    (h : s.layerGen ≠ s.ctxGen ∨ s.loadedCity ≠ some cid) :
    tileComplete s cid success v
      = ({ s with cities := updateCity s.cities cid decPending }, noActions) := by
  unfold tileComplete
  dsimp only
  rw [if_neg]
  rcases h with h | h
  · exact fun hc => h hc.2
  · exact fun hc => h hc.1

/-- Witness for C2: after a generation bump, a completion for the single
in-flight city decrements `pending` from `2` to `1` and does nothing
else. -/
theorem C2_stale_completion_inert_witness :
    tileComplete (bumpGeneration (loadData freshState demoViewA)) 1 true demoViewB
      = ({ bumpGeneration (loadData freshState demoViewA) with
            cities := updateCity (bumpGeneration (loadData freshState demoViewA)).cities 1
              decPending }, noActions) :=
  C2_stale_completion_inert (bumpGeneration (loadData freshState demoViewA)) 1 true demoViewB
    (Or.inl (by decide))

/-- Counterexample to claim C9-part of C1: issuing the SAME cache key
twice before the first load resolves does NOT register a deferred
continuation — `canSkipCanvasLoad` short-circuits the whole body — so
there is exactly one raster allocation and zero deferred continuations,
not the claimed "exactly one deferred continuation (the second call)".
After `loadData` twice with the same key: the state is unchanged by the
second call, `canvasId = 1`, the single city still has `pending = 2 > 0`
(the first load is unresolved) and `onceLoaded = false`. -/
theorem C1_counterexample :
    loadData (loadData freshState demoViewA) demoViewA = loadData freshState demoViewA ∧
    (loadData freshState demoViewA).canvasId = 1 ∧
    (getCity (loadData freshState demoViewA) 1).map City.pending = some 2 ∧
    (getCity (loadData (loadData freshState demoViewA) demoViewA) 1).map City.onceLoaded
      = some false := by
  decide

/-- Claim C1 (amended): a `loadData` call for a DIFFERENT footprint key
while the active load still has `pending > 0` does not cancel it:
it only sets the single `onceLoaded` slot of the in-flight city
(overwriting any previous value — the stored continuation carries no
data, so latest-wins is slot overwrite), allocates nothing
(`canvasId`, `loadedCity` and the city's `pending` are unchanged);
and when a completion callback brings the active, current-generation
city's `pending` to `0`, the stored continuation is invoked and the
slot is cleared, so it cannot fire again.  A SAME-key call while
`pending > 0` is a no-op and defers nothing (see the counterexample). -/
theorem C1_defer_and_fire_once :
    (∀ (s : CacheState) (v : Viewport) (cid : Nat) (lc : City),
      s.loadedCity = some cid → getCity s cid = some lc → 0 < lc.pending →
      v.zoom ≤ 8 → keyMatches lc v = false →
      loadData s v
          = { s with cities := updateCity s.cities lc.id (fun c => { c with onceLoaded := true }) } ∧
        (loadData s v).canvasId = s.canvasId ∧
        (loadData s v).loadedCity = s.loadedCity ∧
        (getCity (loadData s v) cid).map City.onceLoaded = some true ∧
        (getCity (loadData s v) cid).map City.pending = some lc.pending) ∧
    (∀ (s : CacheState) (cid : Nat) (success : Bool) (v : Viewport) (c : City),
      s.loadedCity = some cid → s.layerGen = s.ctxGen → getCity s cid = some c →
      c.pending = 1 → c.onceLoaded = true → cid ≤ s.canvasId →
      (tileComplete s cid success v).2.invokedOnce = true ∧
        (tileComplete s cid success v).2.queuedBind = true ∧
        (getCity (tileComplete s cid success v).1 cid).map City.onceLoaded = some false) := by
  constructor
  · intro s v cid lc hload hget hp hz hk
    have hlcid : lc.id = cid := by
      have := List.find?_some hget
      simpa using this
    have hscrut : s.loadedCity.bind (getCity s) = some lc := by
      rw [hload]
      exact hget
    have hres : loadData s v
        = { s with cities := updateCity s.cities lc.id (fun c => { c with onceLoaded := true }) } := by
      unfold loadData
      rw [if_pos hz, hscrut]
      dsimp only
      rw [hk, if_neg Bool.false_ne_true, if_pos hp]
    have hgetafter : getCity (loadData s v) cid = some { lc with onceLoaded := true } := by
      rw [hres, ← hlcid]
      exact getCity_updateCity_self s lc.id _ lc (fun c => rfl) (hlcid ▸ hget)
    refine ⟨hres, by rw [hres], by rw [hres], ?_, ?_⟩
    · rw [hgetafter]
      rfl
    · rw [hgetafter]
      rfl
  · intro s cid success v c hload hgen hget hp honce hcid
    have hget1 : getCity { s with cities := updateCity s.cities cid decPending } cid
        = some (decPending c) :=
      getCity_updateCity_self s cid decPending c (fun c => rfl) hget
    have hpend0 : (decPending c).pending ≤ 0 := by
      simp [decPending, hp]
    have hres : tileComplete s cid success v
        = (clearOnce
            (loadData { { s with cities := updateCity s.cities cid decPending }
              with textureUpdate := some cid } v) cid,
           ⟨success, true, true⟩) := by
      unfold tileComplete
      dsimp only
      rw [if_pos ⟨hload, hgen⟩, hget1]
      simp only [tileFinish]
      rw [if_pos hpend0]
      have honce1 : (decPending c).onceLoaded = true := by
        simp [decPending, honce]
      rw [honce1]
      simp only [if_true]
    refine ⟨by rw [hres], by rw [hres], ?_⟩
    rw [hres]
    dsimp only
    set s2 : CacheState :=
      { { s with cities := updateCity s.cities cid decPending } with textureUpdate := some cid }
      with hs2
    have hget2 : getCity s2 cid = some (decPending c) := by
      rw [hs2]
      exact hget1
    have hsome3 : (getCity (loadData s2 v) cid).isSome := by
      apply getCity_loadData_isSome s2 v cid
      · rw [hs2]
        exact hcid
      · rw [hget2]
        rfl
    obtain ⟨c3, hc3⟩ := Option.isSome_iff_exists.mp hsome3
    unfold clearOnce
    rw [getCity_updateCity_self (loadData s2 v) cid
      (fun c => { c with onceLoaded := false }) c3 (fun c => rfl) hc3]
    rfl

/-- Witness for the amended C1: deferring a different-key request on the
in-flight city of `demoViewA`, and firing the stored continuation on the
last completion of a one-pending city. -/
theorem C1_defer_and_fire_once_witness :
    ((getCity (loadData (loadData freshState demoViewA) demoViewB) 1).map City.onceLoaded
        = some true ∧
      (loadData (loadData freshState demoViewA) demoViewB).canvasId
        = (loadData freshState demoViewA).canvasId) ∧
    ((tileComplete (⟨0, 0, 1, [⟨1, 256, 256, 0, 0, 1, 1, true⟩], some 1, none, true⟩ : CacheState)
        1 true demoViewB).2.invokedOnce = true ∧
      (getCity (tileComplete (⟨0, 0, 1, [⟨1, 256, 256, 0, 0, 1, 1, true⟩], some 1, none, true⟩
          : CacheState) 1 true demoViewB).1 1).map City.onceLoaded = some false) := by
  constructor
  · have h := C1_defer_and_fire_once.1 (loadData freshState demoViewA) demoViewB 1
      ⟨1, 256, 256, 0, 0, 1, 2, false⟩ (by decide) (by decide) (by decide) (by decide) (by decide)
    exact ⟨h.2.2.2.1, h.2.1⟩
  · have h := C1_defer_and_fire_once.2
      (⟨0, 0, 1, [⟨1, 256, 256, 0, 0, 1, 1, true⟩], some 1, none, true⟩ : CacheState)
      1 true demoViewB ⟨1, 256, 256, 0, 0, 1, 1, true⟩
      (by decide) (by decide) (by decide) (by decide) (by decide) (by decide)
    exact ⟨h.1, h.2.2⟩

end SunLayer
